import Mathlib

/-
Verification development for the fleet-rest-skeleton service.

The embedding below translates the Go source into Lean:
  * pkg/api/routes (routes source): apiHandler, wrapAPICall, apiEcho, apiError,
    composeAppLogging, the route table of ComposeHTTPServer and its NoRoute handler;
  * internal/metrics: APICallEpilog (one latency/status observation per call);
  * internal/app: Configuration, envVarOverrides, LoadConfiguration, NewOption, NewApp;
  * cmd/server/server.go: the serve-goroutine error branch and the
    post-signal shutdown sequence of serverCmd.Run.

External library behaviour (encoding/json decoding inside gin BindJSON, viper file
reading, the zap logger object, OS signals, wall-clock time) is represented by
explicit inputs to the embedded functions; everything the repository's own code
computes from those inputs is translated faithfully.
-/

namespace FleetSkeleton

/-- A JSON value, the model of the dynamically typed "any" values carried in
request and response bodies. -/
inductive JValue where
  | null : JValue
  | bool (b : Bool) : JValue
  | num (n : Int) : JValue
  | str (s : String) : JValue
  | arr (elems : List JValue) : JValue
  | obj (fields : List (String × JValue)) : JValue

/-- The model of a Go map of type map[string]any: an association list with
no duplicate keys (the decoder never produces duplicates). -/
abbrev JsonMap : Type := List (String × JValue)

/-- The keys of a map, in order. -/
def mapKeys (m : JsonMap) : List String := m.map Prod.fst

/-- Go map assignment m[k] = v: replace the binding when the key is present,
otherwise add a new binding. -/
def mapInsert (m : JsonMap) (k : String) (v : JValue) : JsonMap :=
  match m with
  | [] => [(k, v)]
  | (k0, v0) :: rest => if k0 = k then (k, v) :: rest else (k0, v0) :: mapInsert rest k v

/-- Go map lookup m[k]. -/
def mapFind (m : JsonMap) (k : String) : Option JValue :=
  match m with
  | [] => none
  | (k0, v0) :: rest => if k0 = k then some v0 else mapFind rest k

/-- apiHandler (routes source): a function that performs real work for this API,
taking a map[string]any and returning a JSON-serializable map and an error. -/
abbrev apiHandler : Type := JsonMap → JsonMap × Option String

/-- apiEcho (routes source): copies every key/value pair of the input map into a
fresh map and returns it with a nil error. -/
def apiEcho : apiHandler :=
  fun m => (m.foldl (fun rm kv => mapInsert rm kv.1 kv.2) [], none)

/-- apiError (routes source): ignores its input and returns a nil map together
with the fixed error "bad times". -/
def apiError : apiHandler :=
  fun _ => ([], some "bad times")

/-- The outcome of ctx.BindJSON(&m) where m starts as an empty map: either the
body decoded into a JSON object, or decoding failed with an error message,
leaving m with whatever bindings were filled in before the failure (for typical
malformed bodies, none). The decoding itself is done by the gin/encoding-json
libraries and is an input to the embedded dispatcher. -/
inductive BindOutcome where
  | ok (m : JsonMap) : BindOutcome
  | fail (msg : String) (filled : JsonMap) : BindOutcome

/-- The map m that wrapAPICall holds after the BindJSON call. -/
def bindMap : BindOutcome → JsonMap
  | .ok m => m
  | .fail _ filled => filled

/-- Everything one invocation of the handler returned by wrapAPICall does to its
gin context: the sequence of ctx.JSON response writes (status code and body, in
order; the wire status committed to the client is the first one), the number of
times the wrapped domain handler fn was invoked, and the errors gin accumulated
on the context (BindJSON records its decode error there). -/
structure DispatchResult where
  writes : List (Nat × JValue)
  handlerCalls : Nat
  ginErrors : List String

/-- wrapAPICall (routes source): binds the body into a map; on a decode error it
writes a 400 response carrying the error message (and gin records the error on
the context) — the source has no return statement in that branch — then it
invokes fn on the map unconditionally and writes the handler outcome: 200 with
the result map when the error is nil, otherwise 500 with an error object, the
result value being discarded. -/
def wrapAPICall (fn : apiHandler) (bind : BindOutcome) : DispatchResult :=
  let decodeWrites : List (Nat × JValue) :=
    match bind with
    | .ok _ => []
    | .fail msg _ => [(400, JValue.obj [("error", JValue.str msg)])]
  let decodeErrs : List String :=
    match bind with
    | .ok _ => []
    | .fail msg _ => [msg]
  let res := fn (bindMap bind)
  let responseCode : Nat :=
    match res.2 with
    | none => 200
    | some _ => 500
  let outObj : JsonMap :=
    match res.2 with
    | none => res.1
    | some e => [("error", JValue.str e)]
  { writes := decodeWrites ++ [(responseCode, JValue.obj outObj)]
    handlerCalls := 1
    ginErrors := decodeErrs }

/-- The handler-outcome response write of one wrapAPICall invocation (the final
ctx.JSON call at the end of the wrapper). -/
def finalWrite (fn : apiHandler) (bind : BindOutcome) : Nat × JValue :=
  match (fn (bindMap bind)).2 with
  | none => (200, JValue.obj (fn (bindMap bind)).1)
  | some e => (500, JValue.obj [("error", JValue.str e)])

/-- Severity of a zap log statement. -/
inductive LogLevel where
  | info : LogLevel
  | error : LogLevel
  | fatal : LogLevel
deriving DecidableEq

/-- What the inner chain (auth handler, wrapped API call, NoRoute handler)
left on the gin context when c.Next() returned: the response status written by
the chain and the errors accumulated on the context. -/
structure InnerOutcome where
  status : Nat
  errs : List String
deriving DecidableEq

/-- One sample recorded in the apiLatencySeconds Prometheus histogram: the
endpoint and response-code labels of the observation (the observed latency value
itself is wall-clock time, an external quantity). -/
structure Observation where
  endpoint : String
  code : Nat
deriving DecidableEq

/-- APICallEpilog (internal/metrics): observes one latency sample labelled with
the endpoint and the response code. -/
def APICallEpilog (endpoint : String) (responseCode : Nat) : Observation :=
  { endpoint := endpoint, code := responseCode }

/-- One structured log entry emitted by composeAppLogging. -/
structure LogEntry where
  level : LogLevel
  msg : String
  path : String
  query : String
  statusCode : Nat
  errs : List String
deriving DecidableEq

/-- composeAppLogging (routes source): the middleware records the request path
and query, runs the rest of the chain, calls metrics.APICallEpilog exactly once
with the path and final status, then logs the request at error severity when the
context accumulated errors and at informational severity otherwise. Returns the
histogram observations made (exactly one) and the log entry. -/
def composeAppLogging (path query : String) (inner : InnerOutcome) : List Observation × LogEntry :=
  let ob := APICallEpilog path inner.status
  if 0 < inner.errs.length then
    ([ob], { level := .error, msg := "errors on API request", path := path, query := query,
             statusCode := inner.status, errs := inner.errs })
  else
    ([ob], { level := .info, msg := "api call complete", path := path, query := query,
             statusCode := inner.status, errs := [] })

/-- One request as seen by the logging middleware. -/
structure Request where
  path : String
  query : String
  inner : InnerOutcome

/-- The histogram observations produced by running the middleware over a
sequence of requests, in order. -/
def observationsOf (reqs : List Request) : List Observation :=
  (reqs.map (fun r => (composeAppLogging r.path r.query r.inner).1)).flatten

/-- The sample count of the apiLatencySeconds histogram for a given endpoint
label, over a list of recorded observations. -/
def histCount (obs : List Observation) (endpoint : String) : Nat :=
  (obs.filter (fun o => o.endpoint = endpoint)).length

/-- The error value returned by srv.ListenAndServe(): either http.ErrServerClosed
(the graceful-close sentinel returned after Shutdown/Close) or some other
listener failure such as a bind error. -/
inductive ListenError where
  | serverClosed : ListenError
  | other (msg : String) : ListenError
deriving DecidableEq

/-- The test errors.Is(err, http.ErrServerClosed) on a non-nil error. -/
def errorsIsServerClosed : ListenError → Bool
  | .serverClosed => true
  | .other _ => false

/-- What the serve goroutine does with the ListenAndServe result. -/
inductive ServeReaction where
  | fatalLogExit (msg : String) : ServeReaction
  | ignored : ServeReaction
deriving DecidableEq

/-- The serve goroutine of serverCmd.Run (cmd/server/server.go): it calls
logger.Fatal("error serving API") exactly when err != nil and
errors.Is(err, http.ErrServerClosed) holds, and otherwise does nothing
(the goroutine simply returns). (ListenAndServe always returns a non-nil
error in Go; the none case models the goroutine still running.) -/
def serveGoroutineReaction (err : Option ListenError) : ServeReaction :=
  match err with
  | some e => if errorsIsServerClosed e then .fatalLogExit "error serving API" else .ignored
  | none => .ignored

/-- The observable tail of serverCmd.Run after WaitForSignal returns: the log
statements emitted (in order), whether the process terminates afterwards, and
how many times srv.Shutdown was invoked. -/
structure ShutdownTrace where
  logs : List (LogLevel × String)
  exited : Bool
  shutdownAttempts : Nat
deriving DecidableEq

/-- The post-signal sequence of serverCmd.Run (cmd/server/server.go): log
"signaled to terminate", cancel the app context, call srv.Shutdown once with the
10-second bounded context; if Shutdown returned an error (e.g. the drain
deadline elapsed first), log it via logger.Fatal — which writes the fatal entry
and terminates the process; otherwise run the otel shutdown, log "OK, done." and
return, after which the process exits normally. The Shutdown outcome (nil or an
error message such as context deadline exceeded) is an input supplied by the
net/http library. -/
def afterSignalSequence (shutdownErr : Option String) : ShutdownTrace :=
  let pre : List (LogLevel × String) := [(LogLevel.info, "signaled to terminate")]
  match shutdownErr with
  | some e =>
      { logs := pre ++ [(LogLevel.fatal, "server shutdown error: " ++ e)]
        exited := true
        shutdownAttempts := 1 }
  | none =>
      { logs := pre ++ [(LogLevel.info, "OK, done.")]
        exited := true
        shutdownAttempts := 1 }

/-- Configuration (internal/app/config.go). The JWT auth configurations are
opaque external data; only how many were supplied matters to this core. -/
structure Configuration where
  listenAddress : String
  developerMode : Bool
  jwtAuthCount : Nat
deriving DecidableEq

/-- The message produced by errors.Wrap(err, ctx) and by
log.Fatalf("ctx: %s", err). -/
def wrapErrMsg (ctx e : String) : String := ctx ++ ": " ++ e

/-- The override-applying half of envVarOverrides (internal/app/app.go): the
listen.address environment value, when non-empty, replaces the file-supplied
address, and developer.mode true switches developer mode on. -/
def applyOverrides (envListenAddress : String) (envDeveloperMode : Bool)
    (cfg : Configuration) : Configuration :=
  let cfg1 := if envListenAddress = "" then cfg else { cfg with listenAddress := envListenAddress }
  if envDeveloperMode then { cfg1 with developerMode := true } else cfg1

/-- envVarOverrides (internal/app/app.go): apply the listen.address and
developer.mode environment overrides (viper lookups, supplied as inputs), then
perform the sanity check that rejects an empty listen address. -/
def envVarOverrides (envListenAddress : String) (envDeveloperMode : Bool)
    (cfg : Configuration) : Except String Configuration :=
  let cfg2 := applyOverrides envListenAddress envDeveloperMode cfg
  if cfg2.listenAddress = "" then .error "no listen address set" else .ok cfg2

/-- LoadConfiguration (internal/app/app.go): open, read and unmarshal the
configuration file (viper/os work, supplied as the fileOutcome input, already
wrapped with its context message on failure), then apply envVarOverrides,
wrapping its error with "configuring environment orverrides" (sic, as in the
source). -/
def LoadConfiguration (fileOutcome : Except String Configuration)
    (envListenAddress : String) (envDeveloperMode : Bool) : Except String Configuration :=
  match fileOutcome with
  | .error e => .error e
  | .ok cfg =>
      match envVarOverrides envListenAddress envDeveloperMode cfg with
      | .error e => .error (wrapErrMsg "configuring environment orverrides" e)
      | .ok c => .ok c

/-- How serverCmd.Run starts: either it exits via log.Fatalf before any serving
happens, or it proceeds to serve with the loaded configuration. -/
inductive RunOutcome where
  | exitBeforeServing (msg : String) : RunOutcome
  | serving (cfg : Configuration) : RunOutcome
deriving DecidableEq

/-- The startup head of serverCmd.Run (cmd/server/server.go): load the
configuration; on error, log.Fatalf("loading configuration: %s", err) exits the
process before any listener is created; on success, serving proceeds with the
returned configuration. -/
def serverRunStart (fileOutcome : Except String Configuration)
    (envListenAddress : String) (envDeveloperMode : Bool) : RunOutcome :=
  match LoadConfiguration fileOutcome envListenAddress envDeveloperMode with
  | .error e => .exitBeforeServing (wrapErrMsg "loading configuration" e)
  | .ok cfg => .serving cfg

/-- The endpoints registered on the gin engine by ComposeHTTPServer
(routes source). -/
inductive RouteTarget where
  | liveness : RouteTarget
  | versionInfo : RouteTarget
  | echoAPI : RouteTarget
  | errorAPI : RouteTarget
deriving DecidableEq

/-- The route table built by ComposeHTTPServer: GET /_health/liveness,
GET /api/version, POST /api/echo, POST /api/error. A request matches a route
exactly when its method and path equal a registered pair; anything else falls
through to the NoRoute handler. -/
def lookupRoute (method path : String) : Option RouteTarget :=
  if method = "GET" ∧ path = "/_health/liveness" then some .liveness
  else if method = "GET" ∧ path = "/api/version" then some .versionInfo
  else if method = "POST" ∧ path = "/api/echo" then some .echoAPI
  else if method = "POST" ∧ path = "/api/error" then some .errorAPI
  else none

/-- The response writes the engine composed by ComposeHTTPServer performs for a
request (now is the wall-clock value rendered by the liveness handler, ver the
version descriptor built by version.Current(); both are external inputs). An
unmatched request gets the NoRoute response; the POST endpoints run their
wrapped API handlers on the bind outcome of the request body. -/
def ginRespond (now ver : JValue) (method path : String) (bind : BindOutcome) :
    List (Nat × JValue) :=
  match lookupRoute method path with
  | none => [(404, JValue.obj [("message", JValue.str "invalid request - route not found")])]
  | some .liveness => [(200, JValue.obj [("time", now)])]
  | some .versionInfo => [(200, ver)]
  | some .echoAPI => (wrapAPICall apiEcho bind).writes
  | some .errorAPI => (wrapAPICall apiError bind).writes

/-- App (internal/app/app.go). The logger, context and signal channel are
external resources; the opts field is the map[string]any, with none modelling a
nil Go map (NewApp's struct literal never initializes it). -/
structure App where
  cfg : Configuration
  opts : Option (List (String × JValue))

/-- NewOption (internal/app/app.go): the returned Option assigns
a.opts[key] = opt. In Go, assignment to an entry in a nil map panics; the
panic is modelled as the error case. -/
def NewOption (key : String) (opt : JValue) (a : App) : Except String App :=
  match a.opts with
  | none => .error "assignment to entry in nil map"
  | some m => .ok { a with opts := some (mapInsert m key opt) }

/-- NewApp (internal/app/app.go): builds the App with Log, Cfg, ctx and term
set and opts left as the zero value (nil map), then applies each provided
Option in order. Every Option in the repository is produced by NewOption, so
the option list is modelled by the key/value arguments handed to NewOption. -/
def NewApp (cfg : Configuration) (optArgs : List (String × JValue)) : Except String App :=
  optArgs.foldlM (fun a kv => NewOption kv.1 kv.2 a) { cfg := cfg, opts := none }

/-- Inserting a key that is absent appends the binding at the end. -/
theorem mapInsert_of_notMem (m : JsonMap) (k : String) (v : JValue) (h : k ∉ mapKeys m) :
    mapInsert m k v = m ++ [(k, v)] := by
  induction m with
  | nil => rfl
  | cons kv rest ih =>
    obtain ⟨k0, v0⟩ := kv
    simp only [mapKeys, List.map_cons, List.mem_cons, not_or] at h
    simp only [mapInsert, List.cons_append]
    rw [if_neg (fun hh => h.1 hh.symm), ih h.2]

/-- Folding Go-map insertion over a list of bindings with pairwise distinct keys
appends them in order. -/
theorem foldl_mapInsert_append (m : JsonMap) : ∀ acc : JsonMap,
    (mapKeys (acc ++ m)).Nodup →
    m.foldl (fun rm kv => mapInsert rm kv.1 kv.2) acc = acc ++ m := by
  induction m with
  | nil => intro acc _; simp
  | cons kv rest ih =>
    intro acc h
    obtain ⟨k, v⟩ := kv
    have hsplit : (mapKeys acc ++ k :: mapKeys rest).Nodup := by
      simpa [mapKeys] using h
    have hk : k ∉ mapKeys acc := by
      rcases List.nodup_append.mp hsplit with ⟨-, -, hd⟩
      exact fun hmem => hd hmem (List.mem_cons_self k (mapKeys rest))
    rw [List.foldl_cons, mapInsert_of_notMem acc k v hk,
        ih (acc ++ [(k, v)]) (by simpa [mapKeys] using h)]
    simp

/-- apiEcho returns a copy of its input map (equal to it, given that decoded
JSON objects never carry duplicate keys) and a nil error. -/
theorem apiEcho_copy_eq (m : JsonMap) (h : (mapKeys m).Nodup) : apiEcho m = (m, none) := by
  have := foldl_mapInsert_append m [] (by simpa [mapKeys] using h)
  simp only [apiEcho, this, List.nil_append]

/-- The histogram sample count is additive over concatenation of observations. -/
theorem histCount_append (a b : List Observation) (e : String) :
    histCount (a ++ b) e = histCount a e + histCount b e := by
  simp [histCount, List.filter_append]

/-- The logging middleware records exactly one observation, tagged with the
request path and the final status, on every branch. -/
theorem composeAppLogging_observations (path query : String) (inner : InnerOutcome) :
    (composeAppLogging path query inner).1 = [APICallEpilog path inner.status] := by
  by_cases h : 0 < inner.errs.length <;> simp [composeAppLogging, h]

/-- Observations produced by a batch of requests decompose request by request. -/
theorem observationsOf_cons (r : Request) (rs : List Request) :
    observationsOf (r :: rs) = (composeAppLogging r.path r.query r.inner).1 ++ observationsOf rs := by
  simp [observationsOf]

/-- n requests to the echo endpoint contribute exactly n samples to its
histogram series. -/
theorem histCount_echo_replicate (n : Nat) (q : String) (i : InnerOutcome) :
    histCount (observationsOf
      (List.replicate n { path := "/api/echo", query := q, inner := i })) "/api/echo" = n := by
  induction n with
  | zero => rfl
  | succ k ih =>
    rw [List.replicate_succ, observationsOf_cons, histCount_append, ih,
        composeAppLogging_observations]
    simp [histCount, APICallEpilog, Nat.add_comm]

/-- Applying overrides never changes the listen address when the environment
supplies none. -/
theorem applyOverrides_listen_empty_env (ed : Bool) (c : Configuration) :
    (applyOverrides "" ed c).listenAddress = c.listenAddress := by
  cases ed <;> simp [applyOverrides]

/-- A successful envVarOverrides result always carries a non-empty listen
address (the sanity check rejects the empty one). -/
theorem envVarOverrides_ok_listen (ea : String) (ed : Bool) (c c2 : Configuration)
    (h : envVarOverrides ea ed c = .ok c2) : ¬ c2.listenAddress = "" := by
  simp only [envVarOverrides] at h
  by_cases hc : (applyOverrides ea ed c).listenAddress = ""
  · rw [if_pos hc] at h
    exact absurd h (by simp)
  · rw [if_neg hc] at h
    injection h with h2
    subst h2
    exact hc

/-- With no environment override and an empty file-supplied address, the
override pass fails its sanity check. -/
theorem envVarOverrides_empty (ed : Bool) (fc : Configuration) (h : fc.listenAddress = "") :
    envVarOverrides "" ed fc = .error "no listen address set" := by
  simp only [envVarOverrides]
  rw [if_pos (by rw [applyOverrides_listen_empty_env, h])]

/-- Claim C1, counterexample: for the request whose body fails to decode with
message "unexpected end of JSON input", the dispatcher does invoke the domain
handler — the invocation count is 1, not 0 — refuting "the domain handler is
never invoked for that request". -/
theorem c1_counterexample :
    0 < (wrapAPICall apiEcho (BindOutcome.fail "unexpected end of JSON input" [])).handlerCalls ∧
    (wrapAPICall apiEcho (BindOutcome.fail "unexpected end of JSON input" [])).handlerCalls = 1 :=
  ⟨Nat.zero_lt_one, rfl⟩

/-- Claim C1 (amended): on every decode failure the dispatcher first writes a
client-error 400 response whose error field is the decode failure's message (so
the committed wire status is 400), and the decode error is recorded on the
context; but wrapAPICall has no return in that branch, so the domain handler is
still invoked exactly once with the partially-filled map and a second response
write is appended — each such request performs two writes and one handler call
(hence two calls with the same malformed body produce two 400-first responses
and two handler invocations). -/
theorem c1_decode_failure_writes_400_but_invokes_handler (fn : apiHandler) (msg : String)
    (filled : JsonMap) :
    (wrapAPICall fn (BindOutcome.fail msg filled)).writes.head? =
      some (400, JValue.obj [("error", JValue.str msg)]) ∧
    (wrapAPICall fn (BindOutcome.fail msg filled)).handlerCalls = 1 ∧
    (wrapAPICall fn (BindOutcome.fail msg filled)).writes.length = 2 ∧
    (wrapAPICall fn (BindOutcome.fail msg filled)).ginErrors = [msg] :=
  ⟨rfl, rfl, rfl, rfl⟩

/-- Claim C2, counterexample: one dispatcher invocation on a malformed body
(decode error "invalid character") writes both a failure response (400 with an
error field) and a success response (200 with the echoed empty object),
refuting "never both a failure response and a success response". -/
theorem c2_counterexample :
    (400, JValue.obj [("error", JValue.str "invalid character")]) ∈
      (wrapAPICall apiEcho (BindOutcome.fail "invalid character" [])).writes ∧
    (200, JValue.obj []) ∈
      (wrapAPICall apiEcho (BindOutcome.fail "invalid character" [])).writes := by
  constructor
  · simp [wrapAPICall, bindMap]
  · simp [wrapAPICall, bindMap, apiEcho]

/-- Claim C2 (amended): every dispatcher invocation performs at least one
response write (never neither), and its final write resolves to exactly one of
success-with-result (200 with the handler result) or failure-with-error (500
with the error message); when the body decodes successfully that final write is
the only one, but on a decode failure an additional 400 failure write precedes
it, so such a request receives both a failure write and the handler-outcome
write. -/
theorem c2_envelope_resolution (fn : apiHandler) (bind : BindOutcome) (m : JsonMap) :
    0 < (wrapAPICall fn bind).writes.length ∧
    (wrapAPICall fn (BindOutcome.ok m)).writes.length = 1 ∧
    (wrapAPICall fn bind).writes.getLast? = some (finalWrite fn bind) := by
  refine ⟨?_, rfl, ?_⟩
  · cases bind <;> simp [wrapAPICall]
  · cases bind with
    | ok m0 => cases h : (fn m0).2 <;> simp [wrapAPICall, finalWrite, bindMap, h]
    | fail msg filled => cases h : (fn filled).2 <;> simp [wrapAPICall, finalWrite, bindMap, h]

/-- Claim C3: the spec requires every listener error other than graceful close
to be fatal (logged, process terminates) and never swallowed. The serve
goroutine of serverCmd.Run tests err != nil AND errors.Is(err,
http.ErrServerClosed) — the guard is inverted: evaluated at a bind failure the
code silently ignores the error, while the graceful-close sentinel
http.ErrServerClosed is the one value that triggers the fatal log-and-exit. -/
theorem c3_listen_error_swallowed :
    serveGoroutineReaction
        (some (ListenError.other "listen tcp :8080: bind: address already in use")) =
      ServeReaction.ignored ∧
    serveGoroutineReaction (some ListenError.serverClosed) =
      ServeReaction.fatalLogExit "error serving API" :=
  ⟨rfl, rfl⟩

/-- Claim C4: for every valid JSON-object input m (decoded maps have pairwise
distinct keys), the echo handler returns a copy of m unchanged with a nil
error, the dispatcher responds with the single write (200, m), and POSTing m to
the /api/echo endpoint yields exactly that response. -/
theorem c4_echo_roundtrip (m : JsonMap) (now ver : JValue) (h : (mapKeys m).Nodup) :
    apiEcho m = (m, none) ∧
    wrapAPICall apiEcho (BindOutcome.ok m) =
      { writes := [(200, JValue.obj m)], handlerCalls := 1, ginErrors := [] } ∧
    ginRespond now ver "POST" "/api/echo" (BindOutcome.ok m) = [(200, JValue.obj m)] := by
  have he := apiEcho_copy_eq m h
  have hl : lookupRoute "POST" "/api/echo" = some RouteTarget.echoAPI := by decide
  refine ⟨he, ?_, ?_⟩
  · simp [wrapAPICall, bindMap, he]
  · simp [ginRespond, hl, wrapAPICall, bindMap, he]

/-- Claim C4, witness at the concrete object with the single binding
a ↦ null. -/
theorem c4_echo_roundtrip_witness :
    (mapKeys [("a", JValue.null)]).Nodup ∧
    (apiEcho [("a", JValue.null)] = ([("a", JValue.null)], none) ∧
     wrapAPICall apiEcho (BindOutcome.ok [("a", JValue.null)]) =
       { writes := [(200, JValue.obj [("a", JValue.null)])], handlerCalls := 1, ginErrors := [] } ∧
     ginRespond JValue.null JValue.null "POST" "/api/echo" (BindOutcome.ok [("a", JValue.null)]) =
       [(200, JValue.obj [("a", JValue.null)])]) :=
  ⟨by decide, c4_echo_roundtrip [("a", JValue.null)] JValue.null JValue.null (by decide)⟩

/-- Claim C5: whenever the domain handler returns a non-nil error, the
dispatcher responds with the single write (500, an object whose error field is
the error's message), discarding the handler's result value even when it is
non-empty; in particular apiError yields 500 with the fixed message "bad times"
on every input, including the empty object. -/
theorem c5_handler_error_500 (m r : JsonMap) (fn : apiHandler) (e : String)
    (h : fn m = (r, some e)) :
    wrapAPICall fn (BindOutcome.ok m) =
      { writes := [(500, JValue.obj [("error", JValue.str e)])], handlerCalls := 1,
        ginErrors := [] } ∧
    wrapAPICall apiError (BindOutcome.ok m) =
      { writes := [(500, JValue.obj [("error", JValue.str "bad times")])], handlerCalls := 1,
        ginErrors := [] } := by
  constructor
  · simp [wrapAPICall, bindMap, h]
  · simp [wrapAPICall, bindMap, apiError]

/-- Claim C5, witness: a handler that returns a non-empty result map together
with the error "boom", applied to the empty object. -/
theorem c5_handler_error_500_witness :
    (fun _ : JsonMap => (([("x", JValue.null)] : JsonMap), some "boom")) [] =
      (([("x", JValue.null)] : JsonMap), some "boom") ∧
    (wrapAPICall (fun _ : JsonMap => (([("x", JValue.null)] : JsonMap), some "boom"))
        (BindOutcome.ok []) =
      { writes := [(500, JValue.obj [("error", JValue.str "boom")])], handlerCalls := 1,
        ginErrors := [] } ∧
     wrapAPICall apiError (BindOutcome.ok []) =
      { writes := [(500, JValue.obj [("error", JValue.str "bad times")])], handlerCalls := 1,
        ginErrors := [] }) :=
  ⟨rfl, c5_handler_error_500 [] [("x", JValue.null)]
    (fun _ : JsonMap => (([("x", JValue.null)] : JsonMap), some "boom")) "boom" rfl⟩

/-- Claim C6: when srv.Shutdown returns an error (the bounded drain elapsed
first), the failure is reported to the operator (a log entry carrying the
shutdown error is emitted), the process still proceeds to exit, and the
failure is surfaced rather than retried — Shutdown is attempted exactly
once. -/
theorem c6_shutdown_timeout_reported (e : String) :
    (LogLevel.fatal, "server shutdown error: " ++ e) ∈ (afterSignalSequence (some e)).logs ∧
    (afterSignalSequence (some e)).exited = true ∧
    (afterSignalSequence (some e)).shutdownAttempts = 1 := by
  refine ⟨?_, rfl, rfl⟩
  simp [afterSignalSequence]

/-- Claim C7: on every branch the middleware records exactly one latency/status
observation tagged with the request's endpoint path; the log severity is error
exactly when the context accumulated transport-layer errors, informational
otherwise; and n requests to /api/echo grow that endpoint's histogram sample
count by exactly n over any prior state. -/
theorem c7_logging_and_metrics (path query : String) (inner : InnerOutcome)
    (prior : List Observation) (n : Nat) (q : String) (i : InnerOutcome) :
    (composeAppLogging path query inner).1 = [APICallEpilog path inner.status] ∧
    (composeAppLogging path query inner).2.level =
      (if 0 < inner.errs.length then LogLevel.error else LogLevel.info) ∧
    histCount (prior ++ observationsOf
        (List.replicate n { path := "/api/echo", query := q, inner := i })) "/api/echo" =
      histCount prior "/api/echo" + n := by
  refine ⟨composeAppLogging_observations path query inner, ?_, ?_⟩
  · by_cases h : 0 < inner.errs.length <;> simp [composeAppLogging, h]
  · rw [histCount_append, histCount_echo_replicate]

/-- Claim C8: a configuration that LoadConfiguration returns successfully
always carries a non-empty listen address, and when the file supplies no listen
address and no environment override is present, LoadConfiguration fails and
serverCmd.Run exits before serving any traffic. -/
theorem c8_listen_address_required (fo : Except String Configuration) (ea : String) (ed : Bool) :
    (∀ cfg : Configuration, LoadConfiguration fo ea ed = .ok cfg → ¬ cfg.listenAddress = "") ∧
    (∀ fc : Configuration, fc.listenAddress = "" → ea = "" →
      LoadConfiguration (.ok fc) ea ed =
        .error (wrapErrMsg "configuring environment orverrides" "no listen address set") ∧
      serverRunStart (.ok fc) ea ed =
        .exitBeforeServing (wrapErrMsg "loading configuration"
          (wrapErrMsg "configuring environment orverrides" "no listen address set"))) := by
  constructor
  · intro cfg hok
    cases fo with
    | error e => simp [LoadConfiguration] at hok
    | ok c =>
      simp only [LoadConfiguration] at hok
      cases henv : envVarOverrides ea ed c with
      | error e => rw [henv] at hok; exact absurd hok (by simp)
      | ok c2 =>
        rw [henv] at hok
        injection hok with h2
        subst h2
        exact envVarOverrides_ok_listen ea ed c c2 henv
  · intro fc hfc hea
    subst hea
    have h1 := envVarOverrides_empty ed fc hfc
    constructor
    · simp [LoadConfiguration, h1]
    · simp [serverRunStart, LoadConfiguration, h1]

/-- Claim C8, witness: a file configuration with address :8000 loads
successfully with a non-empty address, and one with an empty address and no
override fails and stops the run before serving. -/
theorem c8_listen_address_required_witness :
    (LoadConfiguration
        (.ok { listenAddress := ":8000", developerMode := false, jwtAuthCount := 0 }) "" false =
      .ok { listenAddress := ":8000", developerMode := false, jwtAuthCount := 0 } ∧
     ¬ ({ listenAddress := ":8000", developerMode := false, jwtAuthCount := 0 } :
        Configuration).listenAddress = "") ∧
    (LoadConfiguration
        (.ok { listenAddress := "", developerMode := false, jwtAuthCount := 0 }) "" false =
      .error (wrapErrMsg "configuring environment orverrides" "no listen address set") ∧
     serverRunStart
        (.ok { listenAddress := "", developerMode := false, jwtAuthCount := 0 }) "" false =
      .exitBeforeServing (wrapErrMsg "loading configuration"
        (wrapErrMsg "configuring environment orverrides" "no listen address set"))) := by
  refine ⟨⟨rfl, ?_⟩, ?_⟩
  · exact (c8_listen_address_required
      (.ok { listenAddress := ":8000", developerMode := false, jwtAuthCount := 0 }) "" false).1
      { listenAddress := ":8000", developerMode := false, jwtAuthCount := 0 } rfl
  · exact (c8_listen_address_required
      (.ok { listenAddress := "", developerMode := false, jwtAuthCount := 0 }) "" false).2
      { listenAddress := "", developerMode := false, jwtAuthCount := 0 } rfl rfl

/-- Claim C9: every request whose method and path match no registered route
gets the 404 response with the body message "invalid request - route not
found". -/
theorem c9_unknown_route_404 (now ver : JValue) (method path : String) (bind : BindOutcome)
    (h : lookupRoute method path = none) :
    ginRespond now ver method path bind =
      [(404, JValue.obj [("message", JValue.str "invalid request - route not found")])] := by
  simp [ginRespond, h]

/-- Claim C9, witness: DELETE on /api/echo matches no registered route and
receives the 404 body. -/
theorem c9_unknown_route_404_witness :
    lookupRoute "DELETE" "/api/echo" = none ∧
    ginRespond JValue.null JValue.null "DELETE" "/api/echo" (BindOutcome.ok []) =
      [(404, JValue.obj [("message", JValue.str "invalid request - route not found")])] :=
  ⟨by decide,
    c9_unknown_route_404 JValue.null JValue.null "DELETE" "/api/echo" (BindOutcome.ok [])
      (by decide)⟩

/-- Claim C10: NewApp leaves the opts map nil, so applying any non-empty list
of NewOption-produced options panics on the nil-map assignment, while NewApp
with zero options returns a valid App. -/
theorem c10_newApp_nil_opts (cfg : Configuration) (optArgs : List (String × JValue))
    (h : optArgs ≠ []) :
    NewApp cfg optArgs = .error "assignment to entry in nil map" ∧
    NewApp cfg [] = .ok { cfg := cfg, opts := none } := by
  constructor
  · match optArgs, h with
    | kv :: rest, _ => rfl
  · rfl

/-- Claim C10, witness: one option built from key k panics; zero options
succeed. -/
theorem c10_newApp_nil_opts_witness :
    NewApp { listenAddress := ":0", developerMode := false, jwtAuthCount := 0 }
        [("k", JValue.null)] = .error "assignment to entry in nil map" ∧
    NewApp { listenAddress := ":0", developerMode := false, jwtAuthCount := 0 } [] =
      .ok { cfg := { listenAddress := ":0", developerMode := false, jwtAuthCount := 0 },
            opts := none } :=
  c10_newApp_nil_opts { listenAddress := ":0", developerMode := false, jwtAuthCount := 0 }
    [("k", JValue.null)] (List.cons_ne_nil _ _)

end FleetSkeleton
